import Mathlib

/-!
Verification of the analysis-orchestration and suggestion-application core of a
document-editing assistant.  The definitions below are a shallow embedding of
the application state and its transition functions (`App.tsx`) and of the
response-handling parts of the model-gateway module (`geminiService.ts`).
Remote-service behaviour is abstracted into explicit outcome parameters; the
JavaScript string primitives the code relies on (`String.prototype.replace`,
`trim`, `Array.prototype.filter` with index, `findIndex`) are embedded with
their ECMAScript semantics.
-/

/-! ## Data model (`types.ts`) -/

inductive AnalysisType where
  | GRAMMAR
  | CLARITY
  | SOURCES
  | SUMMARY
  | AI_CHECK
deriving DecidableEq

structure Suggestion where
  id : String
  originalText : String
  suggestedText : String
  explanation : String
  type : String
  severity : String
deriving DecidableEq

structure SourceMatch where
  url : String
  title : String
  snippet : Option String
deriving DecidableEq

structure VerificationResult where
  id : String
  claim : String
  status : String
  explanation : String
  sources : List SourceMatch
deriving DecidableEq

structure AiDetectionResult where
  score : Int
  label : String
  explanation : String
deriving DecidableEq

structure AnalysisState where
  isAnalyzing : Bool
  suggestions : List Suggestion
  sources : List SourceMatch
  claimVerification : List VerificationResult
  summary : Option String
  aiDetection : Option AiDetectionResult
  error : Option String
deriving DecidableEq

structure DocumentState where
  text : String
  title : String
deriving DecidableEq

/-- The React component state of `App.tsx`: document, current selection,
visible tab, analysis aggregate and the upload flag. -/
structure SessionState where
  doc : DocumentState
  selectedText : String
  activeTab : AnalysisType
  analysis : AnalysisState
  isUploading : Bool
deriving DecidableEq

/-- The initial analysis aggregate (also the reset value after an upload). -/
def initialAnalysis : AnalysisState :=
  { isAnalyzing := false
    suggestions := []
    sources := []
    claimVerification := []
    summary := none
    aiDetection := none
    error := none }

def analysisFailedMsg : String :=
  "Failed to complete analysis. Please check your internet connection or API key."

def verifyFailedMsg : String :=
  "Failed to verify selected text."

def readDocFailedMsg : String :=
  "Failed to read document text. The format might not be supported."

def uploadFailedMsg : String :=
  "Failed to upload file."

/-! ## ECMAScript string primitives

`applySuggestion` calls `text.replace(searchValue, replaceValue)` with two
plain strings.  Per the ECMAScript specification this finds the first literal
occurrence of `searchValue` and substitutes `replaceValue` after expanding the
replacement patterns of `GetSubstitution` (with no capture groups): a dollar
sign followed by a dollar sign, an ampersand, a backquote or a quote character;
every other piece of `replaceValue` is copied verbatim. -/

def backquoteChar : Char := Char.ofNat 96

def quoteChar : Char := Char.ofNat 39

/-- Boolean test that `pat` is a prefix of `s`. -/
def listPre : List Char → List Char → Bool
  | [], _ => true
  | _ :: _, [] => false
  | a :: as, b :: bs => a == b && listPre as bs

/-- Index of the first occurrence of `pat` as a contiguous substring of `s`
(the semantics of `String.prototype.indexOf` restricted to success/failure). -/
def firstOccurIdx (pat : List Char) : List Char → Option Nat
  | [] => if listPre pat [] then some 0 else none
  | c :: rest =>
    if listPre pat (c :: rest) then some 0
    else (firstOccurIdx pat rest).map (fun n => n + 1)

/-- ECMAScript `GetSubstitution` with an empty capture list: expand the
replacement template over the match `matched` found at `position` in `str`. -/
def getSubstitution (matched str : List Char) (position : Nat) : List Char → List Char
  | [] => []
  | [c] => [c]
  | c :: d :: rest =>
    if c = '$' then
      if d = '$' then d :: getSubstitution matched str position rest
      else if d = '&' then matched ++ getSubstitution matched str position rest
      else if d = backquoteChar then
        str.take position ++ getSubstitution matched str position rest
      else if d = quoteChar then
        str.drop (position + matched.length) ++ getSubstitution matched str position rest
      else c :: getSubstitution matched str position (d :: rest)
    else c :: getSubstitution matched str position (d :: rest)

/-- `String.prototype.replace` with a string `searchValue` (first occurrence
only, literal pattern match, `GetSubstitution` applied to `replaceValue`). -/
def jsReplace (s searchValue replaceValue : String) : String :=
  match firstOccurIdx searchValue.data s.data with
  | none => s
  | some pos =>
    ⟨s.data.take pos ++ getSubstitution searchValue.data s.data pos replaceValue.data
      ++ s.data.drop (pos + searchValue.data.length)⟩

/-- Modelled from the spec: replacement of the first occurrence of `pat` in
`s` by the literal string `r` ("literal substring replacement"), the reference
point the suggestion-application claim is compared against. -/
def literalReplaceFirst (s pat r : String) : String :=
  match firstOccurIdx pat.data s.data with
  | none => s
  | some pos => ⟨s.data.take pos ++ r.data ++ s.data.drop (pos + pat.data.length)⟩

/-- The replacement string contains no dollar sign (so `GetSubstitution`
copies it verbatim). -/
def noDollar (s : String) : Bool := s.data.all (fun c => !(c == '$'))

/-- ECMAScript whitespace and line terminators recognised by
`String.prototype.trim`. -/
def isJsWhitespace (c : Char) : Bool :=
  c == '\x09' || c == '\x0a' || c == '\x0b' || c == '\x0c' || c == '\x0d' ||
  c == ' ' || c == Char.ofNat 160 || c == Char.ofNat 5760 ||
  (8192 <= c.toNat && c.toNat <= 8202) ||
  c == Char.ofNat 8232 || c == Char.ofNat 8233 ||
  c == Char.ofNat 8239 || c == Char.ofNat 8287 ||
  c == Char.ofNat 12288 || c == Char.ofNat 65279

/-- `String.prototype.trim`. -/
def jsTrim (s : String) : String :=
  ⟨((s.data.dropWhile isJsWhitespace).reverse.dropWhile isJsWhitespace).reverse⟩

/-- The run-analysis guard `!doc.text.trim()`: the text trims to the empty
string. -/
def isBlank (s : String) : Bool := jsTrim s == ""

/-! ## Gateway outcome model

Each gateway operation is asynchronous and may throw (missing credential,
transport failure).  A full scan awaits all four whole-document operations via
`Promise.all`; its settled value is modelled by a record of four `Except`
results, and `promiseAll4` is the `Promise.all` fan-in. -/

structure GatewayResults where
  grammar : Except Unit (List Suggestion)
  sources : Except Unit (List SourceMatch)
  summary : Except Unit String
  aiDet : Except Unit AiDetectionResult

/-- `Promise.all` over the four concurrent full-scan requests: succeeds with
all four values, fails if any one of them fails. -/
def promiseAll4 (r : GatewayResults) :
    Except Unit (List Suggestion × List SourceMatch × String × AiDetectionResult) :=
  match r.grammar with
  | .error e => .error e
  | .ok a =>
    match r.sources with
    | .error e => .error e
    | .ok b =>
      match r.summary with
      | .error e => .error e
      | .ok c =>
        match r.aiDet with
        | .error e => .error e
        | .ok d => .ok (a, b, c, d)

/-- An outbound request issued to the model gateway, recording which operation
was invoked and on which text. -/
inductive GatewayCall where
  | grammarCheck (text : String)
  | sourceVerify (text : String)
  | summarize (text : String)
  | aiDetect (text : String)
  | claimVerify (text : String)
deriving DecidableEq

/-! ## Analysis orchestrator (`App.tsx`) -/

/-- The `setAnalysis` issued by `runAnalysis` before awaiting the gateway:
mark analyzing, clear the error, clear the selection-scoped claims. -/
def runAnalysisStart (st : SessionState) : SessionState :=
  { st with analysis :=
      { st.analysis with isAnalyzing := true, error := none, claimVerification := [] } }

/-- `runAnalysis`: guard on blank text, fan out the four gateway requests,
fan in with `Promise.all`; on success replace the aggregate and route the
active tab, on failure keep the aggregate and set the generic error.  Returns
the final component state together with the list of issued gateway calls. -/
def runAnalysis (r : GatewayResults) (st : SessionState) : SessionState × List GatewayCall :=
  if isBlank st.doc.text then (st, [])
  else
    let st1 := runAnalysisStart st
    let calls := [GatewayCall.grammarCheck st.doc.text, GatewayCall.sourceVerify st.doc.text,
                  GatewayCall.summarize st.doc.text, GatewayCall.aiDetect st.doc.text]
    match promiseAll4 r with
    | .error _ =>
      ({ st1 with analysis :=
          { st1.analysis with isAnalyzing := false, error := some analysisFailedMsg } }, calls)
    | .ok (suggestions, sources, summary, aiDetection) =>
      let st2 := { st1 with analysis :=
        { isAnalyzing := false
          suggestions := suggestions
          sources := sources
          claimVerification := []
          summary := some summary
          aiDetection := some aiDetection
          error := none } }
      let tab :=
        if 80 < aiDetection.score then AnalysisType.AI_CHECK
        else if 0 < suggestions.length then AnalysisType.GRAMMAR
        else if 0 < sources.length then AnalysisType.SOURCES
        else st2.activeTab
      ({ st2 with activeTab := tab }, calls)

/-- Settled value of the single claim-verification request of
`verifySelection`. -/
inductive VerifyOutcome where
  | ok (claims : List VerificationResult)
  | failed
deriving DecidableEq

/-- The state visible immediately after `verifySelection` starts (before its
request settles): analyzing, error cleared, tab switched to Sources. -/
def verifySelectionStart (st : SessionState) : SessionState :=
  { st with
      analysis := { st.analysis with isAnalyzing := true, error := none }
      activeTab := AnalysisType.SOURCES }

/-- `verifySelection`: guard on empty selection, verify the selected text
only; on success replace only `claimVerification`, on failure set the
selection-specific error.  Returns the final state and the issued calls. -/
def verifySelection (o : VerifyOutcome) (st : SessionState) : SessionState × List GatewayCall :=
  if st.selectedText = "" then (st, [])
  else
    let st1 := verifySelectionStart st
    match o with
    | .ok claims =>
      ({ st1 with analysis :=
          { st1.analysis with isAnalyzing := false, claimVerification := claims } },
       [GatewayCall.claimVerify st.selectedText])
    | .failed =>
      ({ st1 with analysis :=
          { st1.analysis with isAnalyzing := false, error := some verifyFailedMsg } },
       [GatewayCall.claimVerify st.selectedText])

/-! ## Suggestion application engine (`App.tsx`) -/

/-- `applySuggestion`: `text.replace(originalText, suggestedText)` on the
document, then drop the suggestion whose id matches from the pending list. -/
def applySuggestion (sg : Suggestion) (st : SessionState) : SessionState :=
  { st with
      doc := { st.doc with
        text := jsReplace st.doc.text sg.originalText sg.suggestedText }
      analysis := { st.analysis with
        suggestions := st.analysis.suggestions.filter (fun s => !(s.id == sg.id)) } }

/-! ## File upload (`App.tsx`) -/

/-- How far the upload pipeline gets: no file chosen; file read but the data
URL had no base64 payload; transcription succeeded with the extracted text;
transcription threw; the file-reader call itself threw. -/
inductive UploadOutcome where
  | noFile
  | noBase64
  | transcribed (extractedText : String)
  | transcriptionFailed
  | readFailed
deriving DecidableEq

/-- `handleFileUpload` for a file named `fileName`, by outcome of the pipeline:
on successful transcription replace the document and reset the analysis
aggregate; on transcription failure set the document-specific error and leave
everything else alone. -/
def handleFileUpload (o : UploadOutcome) (fileName : String) (st : SessionState) : SessionState :=
  match o with
  | .noFile => st
  | .noBase64 => { st with isUploading := true }
  | .transcribed extractedText =>
    { st with
        isUploading := false
        doc := { text := extractedText, title := fileName }
        analysis := initialAnalysis }
  | .transcriptionFailed =>
    { st with
        isUploading := false
        analysis := { st.analysis with error := some readDocFailedMsg } }
  | .readFailed =>
    { st with
        isUploading := false
        analysis := { st.analysis with error := some uploadFailedMsg } }

/-! ## Model gateway response handling (`geminiService.ts`)

The network call itself is external; what the repository owns is the handling
of the settled response: the truthiness test on `response.text`, the
`JSON.parse`/schema step (modelled as an explicit `parse` function that either
yields structured data or fails), id attachment, and fallbacks. -/

/-- A grammar suggestion as parsed from the response body, before the `id`
field is attached. -/
structure RawSuggestion where
  originalText : String
  suggestedText : String
  explanation : String
  type : String
  severity : String
deriving DecidableEq

/-- The generated id `suggestion-<index>-<Date.now()>`. -/
def mkSuggestionId (index now : Nat) : String :=
  ("suggestion-" ++ toString index ++ "-" ++ toString now)

/-- `data.map((item, index) => ({...item, id: ...}))` for grammar results. -/
def attachSuggestionIds (now : Nat) : Nat → List RawSuggestion → List Suggestion
  | _, [] => []
  | i, r :: rest =>
    { id := mkSuggestionId i now
      originalText := r.originalText
      suggestedText := r.suggestedText
      explanation := r.explanation
      type := r.type
      severity := r.severity } :: attachSuggestionIds now (i + 1) rest

/-- Response handling of `checkGrammarAndStyle`: falsy body or parse failure
yields the empty list. -/
def checkGrammarAndStyle (parse : String → Except Unit (List RawSuggestion))
    (respText : Option String) (now : Nat) : List Suggestion :=
  match respText with
  | none => []
  | some t =>
    if t = "" then []
    else
      match parse t with
      | .ok data => attachSuggestionIds now 0 data
      | .error _ => []

/-- A claim-verification item as parsed from the response body, before the
`id` field is attached. -/
structure RawVerification where
  claim : String
  status : String
  explanation : String
  sources : List SourceMatch
deriving DecidableEq

/-- The generated id `claim-<index>-<Date.now()>`. -/
def mkClaimId (index now : Nat) : String :=
  ("claim-" ++ toString index ++ "-" ++ toString now)

/-- `data.map((item, index) => ({...item, id: ...}))` for claim results. -/
def attachClaimIds (now : Nat) : Nat → List RawVerification → List VerificationResult
  | _, [] => []
  | i, r :: rest =>
    { id := mkClaimId i now
      claim := r.claim
      status := r.status
      explanation := r.explanation
      sources := r.sources } :: attachClaimIds now (i + 1) rest

/-- Response handling of `verifyTextClaims`: falsy body or parse failure
yields the empty list. -/
def verifyTextClaims (parse : String → Except Unit (List RawVerification))
    (respText : Option String) (now : Nat) : List VerificationResult :=
  match respText with
  | none => []
  | some t =>
    if t = "" then []
    else
      match parse t with
      | .ok data => attachClaimIds now 0 data
      | .error _ => []

/-- The hard-coded fallback object of `detectAIContent`. -/
def aiFallback : AiDetectionResult :=
  { score := 0, label := "Likely Human", explanation := "Could not analyze." }

/-- Response handling of `detectAIContent`: falsy body or parse failure yields
the fallback object. -/
def detectAIContent (parse : String → Except Unit AiDetectionResult)
    (respText : Option String) : AiDetectionResult :=
  match respText with
  | none => aiFallback
  | some t =>
    if t = "" then aiFallback
    else
      match parse t with
      | .ok r => r
      | .error _ => aiFallback

/-! ## `verifySources` grounding-chunk extraction and deduplication -/

/-- The `web` member of a grounding chunk (`uri` plus optional `title`). -/
structure WebInfo where
  uri : String
  title : Option String
deriving DecidableEq

/-- One grounding chunk of the response metadata; `web` may be absent. -/
structure GroundingChunk where
  web : Option WebInfo
deriving DecidableEq

/-- JavaScript `v || dflt` on an optional string: absent and empty are falsy. -/
def jsOrStr (v : Option String) (dflt : String) : String :=
  match v with
  | none => dflt
  | some s => if s = "" then dflt else s

/-- The `sources` array built by the `forEach` push loop, in chunk order. -/
def rawSources (chunks : List GroundingChunk) : List SourceMatch :=
  chunks.filterMap (fun c =>
    c.web.map (fun w =>
      { url := w.uri, title := jsOrStr w.title ("External Source"), snippet := none }))

/-- `Array.prototype.findIndex`: index of the first match, `-1` if none. -/
def jsFindIndex (p : SourceMatch → Bool) : List SourceMatch → Int
  | [] => -1
  | t :: rest =>
    if p t then 0
    else if jsFindIndex p rest = -1 then -1 else jsFindIndex p rest + 1

/-- `Array.prototype.filter` when the callback also consumes the element
index; `i` is the index of the head of the remaining list. -/
def filterWithIndex (p : Nat → SourceMatch → Bool) : Nat → List SourceMatch → List SourceMatch
  | _, [] => []
  | i, t :: rest =>
    if p i t then t :: filterWithIndex p (i + 1) rest else filterWithIndex p (i + 1) rest

/-- `sources.filter((v, i, a) => a.findIndex(t => t.url === v.url) === i)`. -/
def dedupByUrl (a : List SourceMatch) : List SourceMatch :=
  filterWithIndex (fun i v => jsFindIndex (fun t => t.url == v.url) a == (i : Int)) 0 a

/-- The post-response part of `verifySources`: extract the grounding chunks
into `SourceMatch` values and deduplicate by url. -/
def verifySources (chunks : List GroundingChunk) : List SourceMatch :=
  dedupByUrl (rawSources chunks)

/-! ## Concrete example values used in witnesses and counterexamples -/

def sgDollar : Suggestion := ⟨"s1", "a", "$&$&", "e", "Style", "Minor"⟩

def sgLit : Suggestion := ⟨"s2", "a", "c", "e", "Grammar", "Minor"⟩

def stAB : SessionState := ⟨⟨"ab", "T"⟩, "", AnalysisType.GRAMMAR, initialAnalysis, false⟩

def stABSug : SessionState :=
  ⟨⟨"ab", "T"⟩, "", AnalysisType.GRAMMAR, { initialAnalysis with suggestions := [sgLit] }, false⟩

def stHello : SessionState := ⟨⟨"Hello", "T"⟩, "", AnalysisType.CLARITY, initialAnalysis, false⟩

def stBlank : SessionState := ⟨⟨"   ", "T"⟩, "", AnalysisType.GRAMMAR, initialAnalysis, false⟩

def stSel : SessionState := ⟨⟨"Hello", "T"⟩, "Hello", AnalysisType.GRAMMAR, initialAnalysis, false⟩

def aiHigh : AiDetectionResult := ⟨85, "Likely AI-Generated", "p"⟩

def rFail : GatewayResults := ⟨Except.error (), Except.ok [], Except.ok ("sum"), Except.ok aiFallback⟩

def rHigh : GatewayResults :=
  ⟨Except.ok [sgLit, sgDollar], Except.ok [], Except.ok ("sum"), Except.ok aiHigh⟩

def chunkT1 : GroundingChunk := ⟨some ⟨"https://example.com", some ("Title One")⟩⟩

def chunkT2 : GroundingChunk := ⟨some ⟨"https://example.com", some ("Title Two")⟩⟩

/-! ## Properties of the string primitives -/

theorem listPre_iff (p s : List Char) : listPre p s = true ↔ p <+: s := by
  induction p generalizing s with
  | nil => simp [listPre]
  | cons a as ih =>
    cases s with
    | nil => simp [listPre]
    | cons b bs =>
      rw [listPre]
      constructor
      · intro h
        simp only [Bool.and_eq_true, beq_iff_eq] at h
        exact List.cons_prefix_cons.mpr ⟨h.1, (ih bs).mp h.2⟩
      · intro h
        obtain ⟨h1, h2⟩ := List.cons_prefix_cons.mp h
        simp only [Bool.and_eq_true, beq_iff_eq]
        exact ⟨h1, (ih bs).mpr h2⟩

theorem firstOccurIdx_some (pat s : List Char) (i : Nat)
    (h : firstOccurIdx pat s = some i) :
    pat <+: s.drop i ∧ ∀ j, j < i → ¬ pat <+: s.drop j := by
  induction s generalizing i with
  | nil =>
    rw [firstOccurIdx] at h
    split at h
    next hp =>
      obtain rfl : i = 0 := by simpa using h.symm
      exact ⟨by simpa using (listPre_iff pat []).mp hp, by omega⟩
    next => exact Option.noConfusion h
  | cons c rest ih =>
    rw [firstOccurIdx] at h
    split at h
    next hp =>
      obtain rfl : i = 0 := by simpa using h.symm
      exact ⟨by simpa using (listPre_iff pat (c :: rest)).mp hp, by omega⟩
    next hp =>
      cases hfi : firstOccurIdx pat rest with
      | none => rw [hfi] at h; exact Option.noConfusion h
      | some k =>
        rw [hfi] at h
        rw [Option.map_some'] at h
        rw [Option.some.injEq] at h
        subst h
        obtain ⟨h1, h2⟩ := ih k hfi
        refine ⟨by simpa using h1, ?_⟩
        intro j hj
        cases j with
        | zero =>
          intro hcon
          exact hp ((listPre_iff pat (c :: rest)).mpr (by simpa using hcon))
        | succ j =>
          intro hcon
          exact h2 j (by omega) (by simpa using hcon)

theorem getSubstitution_noDollar (matched str : List Char) (position : Nat)
    (repl : List Char) (h : repl.all (fun c => !(c == '$')) = true) :
    getSubstitution matched str position repl = repl := by
  induction repl with
  | nil => rw [getSubstitution]
  | cons c rest ih =>
    cases rest with
    | nil => rw [getSubstitution]
    | cons d rest2 =>
      simp only [List.all_cons, Bool.and_eq_true, Bool.not_eq_true', beq_eq_false_iff_ne,
        ne_eq] at h
      rw [getSubstitution, if_neg h.1]
      have : (d :: rest2).all (fun c => !(c == '$')) = true := by
        simp only [List.all_cons, Bool.and_eq_true, Bool.not_eq_true', beq_eq_false_iff_ne,
          ne_eq]
        exact h.2
      rw [ih this]

theorem jsReplace_noDollar (s pat r : String) (h : noDollar r = true) :
    jsReplace s pat r = literalReplaceFirst s pat r := by
  rw [jsReplace, literalReplaceFirst]
  cases hfi : firstOccurIdx pat.data s.data with
  | none => rfl
  | some pos =>
    dsimp only
    rw [getSubstitution_noDollar _ _ _ _ (by simpa [noDollar] using h)]

/-! ## Claim C1: suggestion application -/

/-- C1 counterexample: the claim says the first occurrence of `originalText`
is replaced by `suggestedText` *literally*; but `String.prototype.replace`
expands dollar patterns in the replacement string, so for the suggested text
consisting of two dollar-ampersand pairs the document becomes `aab`, not the
literal `$&$&b`. -/
theorem c1_applySuggestion_counterexample :
    (applySuggestion sgDollar stAB).doc.text = "aab" ∧
    literalReplaceFirst stAB.doc.text sgDollar.originalText sgDollar.suggestedText = "$&$&b" ∧
    (applySuggestion sgDollar stAB).doc.text ≠
      literalReplaceFirst stAB.doc.text sgDollar.originalText sgDollar.suggestedText := by
  decide

/-- C1 (amended): applying a suggestion replaces the first occurrence of
`originalText` in the document text with `suggestedText` interpreted as an
ECMAScript replacement template (the pattern match itself is literal, not
regex, not case-insensitive); when `suggestedText` contains no dollar sign
this is exactly literal substring replacement; if `originalText` does not
occur verbatim the text is unchanged; and in either case the suggestion is
removed, matched by its id, from the pending suggestion list. -/
theorem c1_applySuggestion_amended (st : SessionState) (sg : Suggestion) :
    ((∀ j, ¬ sg.originalText.data <+: st.doc.text.data.drop j) →
      (applySuggestion sg st).doc.text = st.doc.text) ∧
    (∀ i, firstOccurIdx sg.originalText.data st.doc.text.data = some i →
      sg.originalText.data <+: st.doc.text.data.drop i ∧
      (∀ j, j < i → ¬ sg.originalText.data <+: st.doc.text.data.drop j) ∧
      (applySuggestion sg st).doc.text.data =
        st.doc.text.data.take i ++
          getSubstitution sg.originalText.data st.doc.text.data i sg.suggestedText.data ++
          st.doc.text.data.drop (i + sg.originalText.data.length)) ∧
    (noDollar sg.suggestedText = true →
      (applySuggestion sg st).doc.text =
        literalReplaceFirst st.doc.text sg.originalText sg.suggestedText) ∧
    (applySuggestion sg st).analysis.suggestions =
      st.analysis.suggestions.filter (fun s => !(s.id == sg.id)) := by
  refine ⟨?_, ?_, ?_, rfl⟩
  · intro hno
    cases hfi : firstOccurIdx sg.originalText.data st.doc.text.data with
    | some i => exact absurd (firstOccurIdx_some _ _ _ hfi).1 (hno i)
    | none => simp [applySuggestion, jsReplace, hfi]
  · intro i hfi
    obtain ⟨h1, h2⟩ := firstOccurIdx_some _ _ _ hfi
    refine ⟨h1, h2, ?_⟩
    simp [applySuggestion, jsReplace, hfi]
  · intro hnd
    simp [applySuggestion, jsReplace_noDollar _ _ _ hnd]

/-- C1 witness: a dollar-free suggestion against the document `ab` behaves
exactly as literal first-occurrence replacement, and the applied suggestion is
removed from the pending list. -/
theorem c1_applySuggestion_amended_witness :
    (applySuggestion sgLit stABSug).doc.text = "cb" ∧
    (applySuggestion sgLit stABSug).analysis.suggestions = [] := by
  have h := c1_applySuggestion_amended stABSug sgLit
  have h3 := h.2.2.1 (by decide)
  have h4 := h.2.2.2
  constructor
  · rw [h3]; decide
  · rw [h4]; decide

/-! ## Claim C10: suggestion-application frame -/

/-- C10: applying a suggestion changes at most the document text and the
pending suggestion list; the document title, the selection, the active tab,
the upload flag, and the analysis fields `sources`, `claimVerification`,
`summary`, `aiDetection`, `error` and `isAnalyzing` are all unchanged. -/
theorem c10_applySuggestion_frame (st : SessionState) (sg : Suggestion) :
    (applySuggestion sg st).doc.title = st.doc.title ∧
    (applySuggestion sg st).selectedText = st.selectedText ∧
    (applySuggestion sg st).activeTab = st.activeTab ∧
    (applySuggestion sg st).isUploading = st.isUploading ∧
    (applySuggestion sg st).analysis.sources = st.analysis.sources ∧
    (applySuggestion sg st).analysis.claimVerification = st.analysis.claimVerification ∧
    (applySuggestion sg st).analysis.summary = st.analysis.summary ∧
    (applySuggestion sg st).analysis.aiDetection = st.analysis.aiDetection ∧
    (applySuggestion sg st).analysis.error = st.analysis.error ∧
    (applySuggestion sg st).analysis.isAnalyzing = st.analysis.isAnalyzing :=
  ⟨rfl, rfl, rfl, rfl, rfl, rfl, rfl, rfl, rfl, rfl⟩

/-! ## Claim C2: full-scan failure preserves prior results -/

theorem promiseAll4_error (r : GatewayResults)
    (hfail : r.grammar = Except.error () ∨ r.sources = Except.error () ∨
      r.summary = Except.error () ∨ r.aiDet = Except.error ()) :
    promiseAll4 r = Except.error () := by
  obtain ⟨g, so, su, ai⟩ := r
  cases g <;> cases so <;> cases su <;> cases ai <;> simp_all [promiseAll4]

/-- C2: if any one of the four concurrent full-scan operations fails, the run
as a whole fails: prior suggestions, sources, summary and AI-detection are
preserved unchanged, `isAnalyzing` is cleared and the generic failure message
is set. -/
theorem c2_fullScanFailure (st : SessionState) (r : GatewayResults)
    (hblank : isBlank st.doc.text = false)
    (hfail : r.grammar = Except.error () ∨ r.sources = Except.error () ∨
      r.summary = Except.error () ∨ r.aiDet = Except.error ()) :
    (runAnalysis r st).1.analysis.suggestions = st.analysis.suggestions ∧
    (runAnalysis r st).1.analysis.sources = st.analysis.sources ∧
    (runAnalysis r st).1.analysis.summary = st.analysis.summary ∧
    (runAnalysis r st).1.analysis.aiDetection = st.analysis.aiDetection ∧
    (runAnalysis r st).1.analysis.isAnalyzing = false ∧
    (runAnalysis r st).1.analysis.error = some analysisFailedMsg := by
  have hp := promiseAll4_error r hfail
  simp [runAnalysis, hblank, hp, runAnalysisStart]

/-- C2 witness: concrete failing scan (grammar request failed) over a
non-blank document. -/
theorem c2_fullScanFailure_witness :
    (runAnalysis rFail stHello).1.analysis.suggestions = stHello.analysis.suggestions ∧
    (runAnalysis rFail stHello).1.analysis.sources = stHello.analysis.sources ∧
    (runAnalysis rFail stHello).1.analysis.summary = stHello.analysis.summary ∧
    (runAnalysis rFail stHello).1.analysis.aiDetection = stHello.analysis.aiDetection ∧
    (runAnalysis rFail stHello).1.analysis.isAnalyzing = false ∧
    (runAnalysis rFail stHello).1.analysis.error = some analysisFailedMsg :=
  c2_fullScanFailure stHello rFail (by decide) (Or.inl rfl)

/-! ## Claim C3: tab routing after a successful full scan -/

/-- C3: after a successful full scan the active tab is chosen in order: AI
score above 80 routes to the AI-check tab, else a non-empty suggestion list
routes to the grammar tab, else a non-empty source list routes to the sources
tab, else the tab is left unchanged. -/
theorem c3_tabRouting (st : SessionState) (a : List Suggestion) (b : List SourceMatch)
    (c : String) (d : AiDetectionResult) (hblank : isBlank st.doc.text = false) :
    (runAnalysis ⟨Except.ok a, Except.ok b, Except.ok c, Except.ok d⟩ st).1.activeTab =
      (if 80 < d.score then AnalysisType.AI_CHECK
       else if a ≠ [] then AnalysisType.GRAMMAR
       else if b ≠ [] then AnalysisType.SOURCES
       else st.activeTab) := by
  simp only [runAnalysis, hblank, Bool.false_eq_true, if_false, promiseAll4]
  by_cases hd : 80 < d.score
  · simp [hd]
  · by_cases ha : a = []
    · by_cases hb : b = [] <;> simp [hd, ha, hb, runAnalysisStart]
    · have : 0 < a.length := List.length_pos.mpr ha
      simp [hd, ha, this]

/-- C3 witness: AI score 85 with two pending suggestions routes to the
AI-check tab (score takes priority over the suggestion count). -/
theorem c3_tabRouting_witness :
    (runAnalysis rHigh stHello).1.activeTab = AnalysisType.AI_CHECK := by
  have h := c3_tabRouting stHello [sgLit, sgDollar] [] ("sum") aiHigh (by decide)
  exact h.trans (by decide)

/-! ## Claim C5: structural parse failures are swallowed per-operation -/

/-- C5: when the response body fails structural parsing, grammar checking and
claim verification return the empty list and AI detection returns the
hard-coded fallback result; the parse error never propagates to the caller. -/
theorem c5_parseFailureSwallowed
    (pg : String → Except Unit (List RawSuggestion))
    (pv : String → Except Unit (List RawVerification))
    (pa : String → Except Unit AiDetectionResult)
    (t : String) (now : Nat) (ht : t ≠ "")
    (hg : pg t = Except.error ()) (hv : pv t = Except.error ())
    (ha : pa t = Except.error ()) :
    checkGrammarAndStyle pg (some t) now = [] ∧
    verifyTextClaims pv (some t) now = [] ∧
    detectAIContent pa (some t) = aiFallback ∧
    aiFallback = { score := 0, label := "Likely Human", explanation := "Could not analyze." } := by
  refine ⟨?_, ?_, ?_, rfl⟩ <;>
    simp [checkGrammarAndStyle, verifyTextClaims, detectAIContent, ht, hg, hv, ha]

/-- C5 witness: an always-failing parse on the body `x` yields the empty
lists and the fallback object. -/
theorem c5_parseFailureSwallowed_witness :
    checkGrammarAndStyle (fun _ => Except.error ()) (some ("x")) 0 = [] ∧
    verifyTextClaims (fun _ => Except.error ()) (some ("x")) 0 = [] ∧
    detectAIContent (fun _ => Except.error ()) (some ("x")) = aiFallback := by
  have h := c5_parseFailureSwallowed (fun _ => Except.error ()) (fun _ => Except.error ())
    (fun _ => Except.error ()) ("x") 0 (by decide) rfl rfl rfl
  exact ⟨h.1, h.2.1, h.2.2.1⟩

/-! ## Claim C6: full scan on blank text is a no-op -/

/-- C6: with empty or whitespace-only document text a full scan leaves the
entire component state unchanged and issues no gateway calls (in particular
`isAnalyzing` never becomes true, since the guard precedes the analyzing
update). -/
theorem c6_blankScanNoOp (st : SessionState) (r : GatewayResults)
    (h : isBlank st.doc.text = true) :
    runAnalysis r st = (st, []) := by
  simp [runAnalysis, h]

/-- C6 witness: whitespace-only document, no state change and no calls. -/
theorem c6_blankScanNoOp_witness : runAnalysis rFail stBlank = (stBlank, []) :=
  c6_blankScanNoOp stBlank rFail (by decide)

/-! ## Claim C7: selection-scoped verification -/

/-- C7: with an empty selection, verification is a complete no-op (no tab
switch, no gateway call, no state change); with a non-empty selection it sets
`isAnalyzing`, clears the error, immediately switches the tab to Sources and
issues exactly one claim-verification call on the selection; on success it
replaces only `claimVerification` (clearing `isAnalyzing`), leaving the other
result fields and the document unchanged; on failure it sets the
selection-specific error message and leaves everything else untouched. -/
theorem c7_verifySelection (st : SessionState) (o : VerifyOutcome) :
    (st.selectedText = "" → verifySelection o st = (st, [])) ∧
    (st.selectedText ≠ "" →
      (verifySelectionStart st).analysis.isAnalyzing = true ∧
      (verifySelectionStart st).analysis.error = none ∧
      (verifySelectionStart st).activeTab = AnalysisType.SOURCES ∧
      (verifySelection o st).1.activeTab = AnalysisType.SOURCES ∧
      (verifySelection o st).2 = [GatewayCall.claimVerify st.selectedText] ∧
      (∀ claims, o = VerifyOutcome.ok claims →
        (verifySelection o st).1.analysis.claimVerification = claims ∧
        (verifySelection o st).1.analysis.isAnalyzing = false ∧
        (verifySelection o st).1.analysis.error = none ∧
        (verifySelection o st).1.analysis.suggestions = st.analysis.suggestions ∧
        (verifySelection o st).1.analysis.sources = st.analysis.sources ∧
        (verifySelection o st).1.analysis.summary = st.analysis.summary ∧
        (verifySelection o st).1.analysis.aiDetection = st.analysis.aiDetection ∧
        (verifySelection o st).1.doc = st.doc) ∧
      (o = VerifyOutcome.failed →
        (verifySelection o st).1.analysis.error = some verifyFailedMsg ∧
        (verifySelection o st).1.analysis.isAnalyzing = false ∧
        (verifySelection o st).1.analysis.claimVerification = st.analysis.claimVerification ∧
        (verifySelection o st).1.analysis.suggestions = st.analysis.suggestions ∧
        (verifySelection o st).1.analysis.sources = st.analysis.sources ∧
        (verifySelection o st).1.analysis.summary = st.analysis.summary ∧
        (verifySelection o st).1.analysis.aiDetection = st.analysis.aiDetection ∧
        (verifySelection o st).1.doc = st.doc)) := by
  constructor
  · intro h
    simp [verifySelection, h]
  · intro h
    refine ⟨rfl, rfl, rfl, ?_, ?_, ?_, ?_⟩
    · cases o <;> simp [verifySelection, verifySelectionStart, h]
    · cases o <;> simp [verifySelection, h]
    · intro claims hcl
      subst hcl
      simp [verifySelection, verifySelectionStart, h]
    · intro hf
      subst hf
      simp [verifySelection, verifySelectionStart, h]

/-- C7 witness: a failing verification over the selection `Hello` sets the
selection-specific error, has switched the tab to Sources, and issued exactly
the one claim-verification call. -/
theorem c7_verifySelection_witness :
    (verifySelection VerifyOutcome.failed stSel).1.analysis.error = some verifyFailedMsg ∧
    (verifySelection VerifyOutcome.failed stSel).1.activeTab = AnalysisType.SOURCES ∧
    (verifySelection VerifyOutcome.failed stSel).2 =
      [GatewayCall.claimVerify stSel.selectedText] := by
  have h := (c7_verifySelection stSel VerifyOutcome.failed).2 (by decide)
  exact ⟨(h.2.2.2.2.2.2 rfl).1, h.2.2.2.1, h.2.2.2.2.1⟩

/-! ## Claim C8: successful upload replaces the document and resets analysis -/

/-- C8: a successful file upload replaces the document text and title with
the transcription result and the file name, and resets every analysis field
to its empty or null initial value with `isAnalyzing` false. -/
theorem c8_uploadSuccess (st : SessionState) (text name : String) :
    (handleFileUpload (UploadOutcome.transcribed text) name st).doc.text = text ∧
    (handleFileUpload (UploadOutcome.transcribed text) name st).doc.title = name ∧
    (handleFileUpload (UploadOutcome.transcribed text) name st).analysis.suggestions = [] ∧
    (handleFileUpload (UploadOutcome.transcribed text) name st).analysis.sources = [] ∧
    (handleFileUpload (UploadOutcome.transcribed text) name st).analysis.claimVerification = [] ∧
    (handleFileUpload (UploadOutcome.transcribed text) name st).analysis.summary = none ∧
    (handleFileUpload (UploadOutcome.transcribed text) name st).analysis.aiDetection = none ∧
    (handleFileUpload (UploadOutcome.transcribed text) name st).analysis.error = none ∧
    (handleFileUpload (UploadOutcome.transcribed text) name st).analysis.isAnalyzing = false :=
  ⟨rfl, rfl, rfl, rfl, rfl, rfl, rfl, rfl, rfl⟩

/-! ## Claim C9: transcription failure is document-specific and preserving -/

/-- C9: when transcription of an uploaded file fails, the error reported is
the document-specific message (distinct from both analysis failure messages),
and the document text/title and every existing analysis result field are left
undisturbed. -/
theorem c9_uploadTranscriptionFailure (st : SessionState) (name : String) :
    (handleFileUpload UploadOutcome.transcriptionFailed name st).analysis.error =
      some readDocFailedMsg ∧
    readDocFailedMsg ≠ analysisFailedMsg ∧
    readDocFailedMsg ≠ verifyFailedMsg ∧
    (handleFileUpload UploadOutcome.transcriptionFailed name st).doc = st.doc ∧
    (handleFileUpload UploadOutcome.transcriptionFailed name st).analysis.suggestions =
      st.analysis.suggestions ∧
    (handleFileUpload UploadOutcome.transcriptionFailed name st).analysis.sources =
      st.analysis.sources ∧
    (handleFileUpload UploadOutcome.transcriptionFailed name st).analysis.claimVerification =
      st.analysis.claimVerification ∧
    (handleFileUpload UploadOutcome.transcriptionFailed name st).analysis.summary =
      st.analysis.summary ∧
    (handleFileUpload UploadOutcome.transcriptionFailed name st).analysis.aiDetection =
      st.analysis.aiDetection :=
  ⟨rfl, by decide, by decide, rfl, rfl, rfl, rfl, rfl, rfl⟩


/-! ## Claim C4: `verifySources` deduplication by url -/

theorem jsFindIndex_cons_iff (x v : SourceMatch) (l : List SourceMatch) (i : Nat) :
    ((jsFindIndex (fun t => t.url == v.url) (x :: l) == ((i + 1 : Nat) : Int)) = true) ↔
    ((x.url == v.url) = false ∧
      (jsFindIndex (fun t => t.url == v.url) l == ((i : Nat) : Int)) = true) := by
  simp only [jsFindIndex, beq_iff_eq, beq_eq_false_iff_ne, ne_eq]
  by_cases hx : x.url = v.url
  · rw [if_pos hx]
    simp only [hx, not_true_eq_false, false_and, iff_false]
    intro h
    omega
  · rw [if_neg hx]
    simp only [hx, not_false_eq_true, true_and]
    by_cases hr : jsFindIndex (fun t => t.url == v.url) l = -1
    · rw [if_pos hr, hr]
      constructor
      · intro h; exfalso; omega
      · intro h; exfalso; omega
    · rw [if_neg hr]
      constructor
      · intro h; omega
      · intro h; omega

theorem filterWithIndex_shift (x : SourceMatch) (l m : List SourceMatch) :
    ∀ i : Nat,
    filterWithIndex (fun j v => jsFindIndex (fun t => t.url == v.url) (x :: l) == ((j : Nat) : Int))
        (i + 1) m =
      (filterWithIndex (fun j v => jsFindIndex (fun t => t.url == v.url) l == ((j : Nat) : Int))
        i m).filter (fun v => !(x.url == v.url)) := by
  induction m with
  | nil => intro i; rfl
  | cons w rest ih =>
    intro i
    simp only [filterWithIndex]
    by_cases hxw : (x.url == w.url) = false
    · by_cases hc : (jsFindIndex (fun t => t.url == w.url) l == ((i : Nat) : Int)) = true
      · have hcond : (jsFindIndex (fun t => t.url == w.url) (x :: l) == ((i + 1 : Nat) : Int))
            = true := (jsFindIndex_cons_iff x w l i).mpr ⟨hxw, hc⟩
        rw [if_pos hcond, if_pos hc, List.filter_cons, if_pos (by simp [hxw])]
        rw [ih (i + 1)]
      · have hcond : ¬ ((jsFindIndex (fun t => t.url == w.url) (x :: l) ==
            ((i + 1 : Nat) : Int)) = true) := by
          rw [jsFindIndex_cons_iff]
          rintro ⟨_, h2⟩
          exact hc h2
        rw [if_neg hcond, if_neg hc]
        exact ih (i + 1)
    · have hxw1 : (x.url == w.url) = true := by
        cases h : (x.url == w.url) with
        | false => exact absurd h hxw
        | true => rfl
      have hcond : ¬ ((jsFindIndex (fun t => t.url == w.url) (x :: l) ==
          ((i + 1 : Nat) : Int)) = true) := by
        rw [jsFindIndex_cons_iff]
        rintro ⟨h1, _⟩
        rw [hxw1] at h1
        cases h1
      rw [if_neg hcond]
      by_cases hc : (jsFindIndex (fun t => t.url == w.url) l == ((i : Nat) : Int)) = true
      · rw [if_pos hc, List.filter_cons, if_neg (by simp [hxw1])]
        exact ih (i + 1)
      · rw [if_neg hc]
        exact ih (i + 1)

theorem dedupByUrl_cons (x : SourceMatch) (l : List SourceMatch) :
    dedupByUrl (x :: l) = x :: (dedupByUrl l).filter (fun v => !(x.url == v.url)) := by
  rw [dedupByUrl, dedupByUrl]
  simp only [filterWithIndex]
  rw [if_pos (by simp [jsFindIndex])]
  congr 1
  exact filterWithIndex_shift x l l 0

theorem dedupByUrl_sublist (a : List SourceMatch) : List.Sublist (dedupByUrl a) a := by
  induction a with
  | nil => exact List.Sublist.refl _
  | cons x l ih =>
    rw [dedupByUrl_cons]
    exact List.Sublist.cons₂ x ((List.filter_sublist _).trans ih)

theorem dedupByUrl_nodup (a : List SourceMatch) : ((dedupByUrl a).map SourceMatch.url).Nodup := by
  induction a with
  | nil => simp [dedupByUrl, filterWithIndex]
  | cons x l ih =>
    rw [dedupByUrl_cons]
    simp only [List.map_cons, List.nodup_cons]
    constructor
    · intro hmem
      simp only [List.mem_map, List.mem_filter, Bool.not_eq_true', beq_eq_false_iff_ne,
        ne_eq] at hmem
      obtain ⟨v, ⟨_, hP⟩, hurl⟩ := hmem
      exact hP hurl.symm
    · exact List.Nodup.sublist ((List.filter_sublist _).map SourceMatch.url) ih

theorem dedupByUrl_covers (a : List SourceMatch) :
    ∀ s ∈ a, ∃ t ∈ dedupByUrl a, t.url = s.url := by
  induction a with
  | nil => simp
  | cons x l ih =>
    intro s hs
    rw [dedupByUrl_cons]
    rcases List.mem_cons.mp hs with rfl | hs
    · exact ⟨s, List.mem_cons_self _ _, rfl⟩
    · obtain ⟨t, ht, hurl⟩ := ih s hs
      by_cases hxt : x.url = t.url
      · exact ⟨x, List.mem_cons_self _ _, by rw [hxt, hurl]⟩
      · refine ⟨t, List.mem_cons_of_mem x ?_, hurl⟩
        rw [List.mem_filter]
        exact ⟨ht, by simpa using hxt⟩

theorem dedupByUrl_first (a : List SourceMatch) :
    ∀ s ∈ dedupByUrl a, a.find? (fun t => t.url == s.url) = some s := by
  induction a with
  | nil => simp [dedupByUrl, filterWithIndex]
  | cons x l ih =>
    intro s hs
    rw [dedupByUrl_cons] at hs
    rcases List.mem_cons.mp hs with rfl | hs
    · rw [List.find?_cons_of_pos _ (by simp)]
    · rw [List.mem_filter] at hs
      obtain ⟨hmem, hP⟩ := hs
      have hne : ¬ x.url = s.url := by simpa using hP
      rw [List.find?_cons_of_neg _ (by simpa using hne)]
      exact ih s hmem

/-- C4: `verifySources` returns exactly one `SourceMatch` per distinct url of
the extracted grounding chunks, in first-seen order (a sublist of the raw
extraction whose urls are pairwise distinct and which still covers every url),
and for a duplicated url the retained element is the first-seen one (so its
title is the first-seen title); in particular two chunks with the same URL and
different titles yield exactly one `SourceMatch` carrying the first title. -/
theorem c4_verifySources_dedup (chunks : List GroundingChunk) :
    ((verifySources chunks).map SourceMatch.url).Nodup ∧
    List.Sublist (verifySources chunks) (rawSources chunks) ∧
    (∀ s ∈ rawSources chunks, ∃ t ∈ verifySources chunks, t.url = s.url) ∧
    (∀ s ∈ verifySources chunks,
      (rawSources chunks).find? (fun t => t.url == s.url) = some s) ∧
    verifySources [chunkT1, chunkT2] = [⟨"https://example.com", "Title One", none⟩] :=
  ⟨dedupByUrl_nodup _, dedupByUrl_sublist _, dedupByUrl_covers _, dedupByUrl_first _, by decide⟩

/-- C4 witness: the two same-url chunks give a one-element, duplicate-free
result that is a sublist of the two-element raw extraction. -/
theorem c4_verifySources_dedup_witness :
    ((verifySources [chunkT1, chunkT2]).map SourceMatch.url).Nodup ∧
    List.Sublist (verifySources [chunkT1, chunkT2]) (rawSources [chunkT1, chunkT2]) := by
  have h := c4_verifySources_dedup [chunkT1, chunkT2]
  exact ⟨h.1, h.2.1⟩
